import Mathlib

/-!
Verification of the seenslide deduplication core and the cloud session id
generator.

The deduplication engine, the similarity strategies and the event bus are
described in the specification; their tests live under
`src/tests/test_dedup/`, but the implementation modules
(`modules/dedup/engine.py`, `modules/dedup/strategies/hash_strategy.py`,
`modules/dedup/strategies/perceptual_strategy.py`,
`modules/dedup/strategies/hybrid_strategy.py`, `core/bus/event_bus.py`,
`core/interfaces/dedup.py`) are not part of the source tree, so those
components are modelled from the specification text.  The session id
generator (`modules/cloud/session_manager.py`) is present in the source
and is embedded directly.

Floating-point similarity scores are modelled as rationals; the scores the
specification produces (`0.0`, `1.0`, `1 - k/64`, `1 - k/256`) are exact in
binary floating point, so the rational model is faithful on the values the
claims mention.
-/

namespace Seenslide

/-- Modelled from the spec: a decoded image is identified with its raw pixel
buffer (`RawCapture` "owns an in-memory decoded image"; the Hash strategy
digests "the raw pixel buffer of each image").  Each entry is one byte of
the buffer. -/
abbrev Image := List Nat

/-- Modelled from the spec: `RawCapture` — "a single captured frame: owns an
in-memory decoded image, `timestamp` (capture time), `monitor_id`,
`width`/`height` (pixels), `capture_id` (unique per capture), not mutated
after construction" (`core/models/slide.py` is missing from the tree). -/
structure RawCapture where
  image : Image
  timestamp : Nat
  monitor_id : Nat
  width : Nat
  height : Nat
  capture_id : Nat
deriving Repr, DecidableEq

/-- Modelled from the spec: error kinds of §7 surfaced by the missing
`core/interfaces/dedup.py` (`DeduplicationError` and its kinds). -/
inductive DedupError where
  | notInitialized
  | configurationError
deriving Repr, DecidableEq

/-- Modelled from the spec: the configuration mapping consumed by
`initialize(configuration)` — `{strategy, hash_algorithm?,
perceptual_threshold?, perceptual_hash_size?, stages?}`; absent keys are
`none`. -/
structure DedupConfig where
  hash_algorithm : Option String := none
  perceptual_threshold : Option ℚ := none
  perceptual_hash_size : Option Nat := none
  stages : Option (List String) := none
deriving Repr

/-- Modelled from the spec: the supported digest algorithm names
("algorithm selectable: e.g. MD5 or SHA-256"; the configuration surface
lists `hash_algorithm?: "md5"|"sha256"`). -/
def supportedHashAlgorithms : List String := ["md5", "sha256"]

/-- Modelled from the spec: the Hash strategy's per-instance state —
`comparisons_count`, `last_similarity_score`, the stored algorithm and the
initialized flag (`modules/dedup/strategies/hash_strategy.py` is missing
from the tree). -/
structure HashStrategy where
  initialized : Bool := false
  hash_algorithm : String := "md5"
  comparisons_count : Nat := 0
  last_similarity_score : ℚ := 0
deriving Repr, DecidableEq

/-- Modelled from the spec: `initialize(configuration)` of the Hash
strategy — "validates and stores strategy parameters; returns
success/failure (never raises)"; an unsupported hash algorithm name is a
recoverable `false` result.  The function is total, so it cannot raise. -/
def HashStrategy.configure (s : HashStrategy) (cfg : DedupConfig) :
    Bool × HashStrategy :=
  let alg := cfg.hash_algorithm.getD s.hash_algorithm
  if alg ∈ supportedHashAlgorithms then
    (true, { s with initialized := true, hash_algorithm := alg })
  else
    (false, s)

/-- Modelled from the spec: the selectable digest (md5/sha256) is a
collision-free function of the raw pixel buffer — "two images are
duplicates iff digests are bit-for-bit equal … Any single-pixel difference
changes the digest" — so digest equality is modelled as buffer equality. -/
def digestsEqual (a b : Image) : Bool := a == b

/-- Modelled from the spec: `is_duplicate(candidate, reference)` of the
Hash strategy — fails with a `NotInitialized` error kind before a
successful `initialize`; otherwise duplicates iff digests are equal, with
binary similarity score "1.0 on match, 0.0 otherwise", updating
`comparisons_count` and `last_similarity_score`. -/
def HashStrategy.is_duplicate (s : HashStrategy)
    (candidate reference : RawCapture) :
    Except DedupError (Bool × HashStrategy) :=
  if s.initialized then
    let dup := digestsEqual candidate.image reference.image
    let score : ℚ := if dup then 1 else 0
    Except.ok (dup, { s with
      comparisons_count := s.comparisons_count + 1,
      last_similarity_score := score })
  else
    Except.error DedupError.notInitialized

/-- Modelled from the spec: `get_similarity_score()` — "the score from the
most recent `is_duplicate` call; undefined/0 before any comparison". -/
def HashStrategy.get_similarity_score (s : HashStrategy) : ℚ :=
  s.last_similarity_score

/-- Modelled from the spec: the supported perceptual fingerprint sizes —
"fixed-size (8×8 or 16×16, configurable)". -/
def supportedHashSizes : List Nat := [8, 16]

/-- Modelled from the spec: nearest-neighbour downscale of the capture's
pixel grid to an `n × n` grid, the "downscaling" step of the perceptual
fingerprint; out-of-range buffer indices read as 0. -/
def downscale (cap : RawCapture) (n : Nat) : List Nat :=
  (List.range (n * n)).map (fun i =>
    let y := (i / n) * cap.height / n
    let x := (i % n) * cap.width / n
    cap.image.getD (y * cap.width + x) 0)

/-- Modelled from the spec: the perceptual fingerprint, an average-hash over
the downscaled grid ("downscaling + … average-hash techniques"): one bit
per cell, set iff the cell is at least the grid's mean value. -/
def fingerprint (cap : RawCapture) (n : Nat) : List Bool :=
  let px := downscale cap n
  let avg := px.sum / (n * n)
  px.map (fun p => avg ≤ p)

/-- Modelled from the spec: hamming distance between two fingerprints, the
number of positions whose bits differ. -/
def hammingDistance (a b : List Bool) : Nat :=
  (List.zipWith (fun x y => x != y) a b).count true

/-- Modelled from the spec: "similarity score = 1 − (hamming distance
between fingerprints / total bits)" for fingerprint size `n × n`. -/
def perceptualScore (n : Nat) (candidate reference : RawCapture) : ℚ :=
  1 - (hammingDistance (fingerprint candidate n) (fingerprint reference n) : ℚ)
      / ((n * n : Nat) : ℚ)

/-- Modelled from the spec: the Perceptual strategy's per-instance state —
threshold (default 0.95), fingerprint size (default 8), comparison
statistics and the initialized flag
(`modules/dedup/strategies/perceptual_strategy.py` is missing from the
tree). -/
structure PerceptualStrategy where
  initialized : Bool := false
  perceptual_threshold : ℚ := 19 / 20
  perceptual_hash_size : Nat := 8
  comparisons_count : Nat := 0
  last_similarity_score : ℚ := 0
deriving Repr, DecidableEq

/-- Modelled from the spec: `initialize(configuration)` of the Perceptual
strategy — the threshold "must be validated to lie in [0,1] at initialize
time" and the fingerprint size must be 8 or 16; invalid values are a
recoverable `false` result.  The function is total, so it cannot raise. -/
def PerceptualStrategy.configure (s : PerceptualStrategy)
    (cfg : DedupConfig) : Bool × PerceptualStrategy :=
  let t := cfg.perceptual_threshold.getD s.perceptual_threshold
  let n := cfg.perceptual_hash_size.getD s.perceptual_hash_size
  if 0 ≤ t ∧ t ≤ 1 ∧ n ∈ supportedHashSizes then
    (true, { s with
      initialized := true, perceptual_threshold := t,
      perceptual_hash_size := n })
  else
    (false, s)

/-- Modelled from the spec: `is_duplicate(candidate, reference)` of the
Perceptual strategy — `NotInitialized` before a successful `initialize`;
otherwise "Duplicate iff score ≥ configured threshold", updating
`comparisons_count` and `last_similarity_score`. -/
def PerceptualStrategy.is_duplicate (s : PerceptualStrategy)
    (candidate reference : RawCapture) :
    Except DedupError (Bool × PerceptualStrategy) :=
  if s.initialized then
    let score := perceptualScore s.perceptual_hash_size candidate reference
    let dup := decide (s.perceptual_threshold ≤ score)
    Except.ok (dup, { s with
      comparisons_count := s.comparisons_count + 1,
      last_similarity_score := score })
  else
    Except.error DedupError.notInitialized

/-- Modelled from the spec: `get_similarity_score()` of the Perceptual
strategy. -/
def PerceptualStrategy.get_similarity_score (s : PerceptualStrategy) : ℚ :=
  s.last_similarity_score

/-- Modelled from the spec: a Hybrid stage name, "subset/permutation of
\x7bhash, perceptual\x7d". -/
inductive Stage where
  | hash
  | perceptual
deriving Repr, DecidableEq

/-- Modelled from the spec: parsing one configured stage name; an unknown
stage name is invalid. -/
def parseStage (name : String) : Option Stage :=
  if name = "hash" then some Stage.hash
  else if name = "perceptual" then some Stage.perceptual
  else none

/-- Modelled from the spec: the Hybrid strategy's per-instance state — the
ordered stage list, the sub-strategy parameters, per-stage match counters
(`hash_matches`, `perceptual_matches`, `no_matches`) and comparison
statistics (`modules/dedup/strategies/hybrid_strategy.py` is missing from
the tree). -/
structure HybridStrategy where
  initialized : Bool := false
  stages : List Stage := [Stage.hash, Stage.perceptual]
  hash_algorithm : String := "md5"
  perceptual_threshold : ℚ := 19 / 20
  perceptual_hash_size : Nat := 8
  hash_matches : Nat := 0
  perceptual_matches : Nat := 0
  no_matches : Nat := 0
  comparisons_count : Nat := 0
  last_similarity_score : ℚ := 0
deriving Repr, DecidableEq

/-- Modelled from the spec: `initialize(configuration)` of the Hybrid
strategy — "Configuration must specify at least one valid stage name from
the supported set, else initialize fails"; the sub-strategy parameters are
validated as in the Hash and Perceptual strategies.  The function is
total, so it cannot raise. -/
def HybridStrategy.configure (s : HybridStrategy) (cfg : DedupConfig) :
    Bool × HybridStrategy :=
  let alg := cfg.hash_algorithm.getD s.hash_algorithm
  let t := cfg.perceptual_threshold.getD s.perceptual_threshold
  let n := cfg.perceptual_hash_size.getD s.perceptual_hash_size
  let names := cfg.stages.getD ["hash", "perceptual"]
  let parsed := names.map parseStage
  if parsed.all Option.isSome ∧ parsed ≠ [] ∧
      alg ∈ supportedHashAlgorithms ∧ 0 ≤ t ∧ t ≤ 1 ∧
      n ∈ supportedHashSizes then
    (true, { s with
      initialized := true, stages := parsed.filterMap id,
      hash_algorithm := alg, perceptual_threshold := t,
      perceptual_hash_size := n })
  else
    (false, s)

/-- Modelled from the spec: running the configured stages in order — the
"staged early-exit": the first stage reporting a match wins and later
stages are not consulted; returns the matching stage (if any) and the
similarity score of the last stage evaluated. -/
def HybridStrategy.runStages (s : HybridStrategy)
    (candidate reference : RawCapture) : List Stage → Option Stage × ℚ
  | [] => (none, 0)
  | stage :: rest =>
    let score : ℚ :=
      match stage with
      | Stage.hash =>
        if digestsEqual candidate.image reference.image then 1 else 0
      | Stage.perceptual =>
        perceptualScore s.perceptual_hash_size candidate reference
    let matched : Bool :=
      match stage with
      | Stage.hash => digestsEqual candidate.image reference.image
      | Stage.perceptual => decide (s.perceptual_threshold ≤ score)
    if matched then (some stage, score)
    else
      match rest with
      | [] => (none, score)
      | _ => s.runStages candidate reference rest

/-- Modelled from the spec: `is_duplicate(candidate, reference)` of the
Hybrid strategy — `NotInitialized` before a successful `initialize`;
otherwise "short-circuits and returns duplicate=true on the first stage
that reports a match", incrementing the matching stage's counter
(`no_matches` when no stage matched) and the comparison statistics. -/
def HybridStrategy.is_duplicate (s : HybridStrategy)
    (candidate reference : RawCapture) :
    Except DedupError (Bool × HybridStrategy) :=
  if s.initialized then
    let (matchedStage, score) := s.runStages candidate reference s.stages
    Except.ok (matchedStage.isSome, { s with
      hash_matches :=
        s.hash_matches + (if matchedStage = some Stage.hash then 1 else 0),
      perceptual_matches :=
        s.perceptual_matches +
          (if matchedStage = some Stage.perceptual then 1 else 0),
      no_matches := s.no_matches + (if matchedStage = none then 1 else 0),
      comparisons_count := s.comparisons_count + 1,
      last_similarity_score := score })
  else
    Except.error DedupError.notInitialized

/-- Modelled from the spec: `get_similarity_score()` of the Hybrid
strategy. -/
def HybridStrategy.get_similarity_score (s : HybridStrategy) : ℚ :=
  s.last_similarity_score

/-- Modelled from the spec: the strategy variants ("variants \x7bHash,
Perceptual, Hybrid\x7d" behind one comparison interface). -/
inductive Strategy where
  | hash : HashStrategy → Strategy
  | perceptual : PerceptualStrategy → Strategy
  | hybrid : HybridStrategy → Strategy
deriving Repr

/-- Modelled from the spec: the strategy name exposed in statistics. -/
def Strategy.name : Strategy → String
  | Strategy.hash _ => "hash"
  | Strategy.perceptual _ => "perceptual"
  | Strategy.hybrid _ => "hybrid"

/-- Modelled from the spec: whether `initialize` has succeeded on this
strategy instance. -/
def Strategy.initialized : Strategy → Bool
  | Strategy.hash s => s.initialized
  | Strategy.perceptual s => s.initialized
  | Strategy.hybrid s => s.initialized

/-- Modelled from the spec: `initialize(configuration)` dispatched over the
strategy variants; total, so it cannot raise across the public boundary. -/
def Strategy.configure : Strategy → DedupConfig → Bool × Strategy
  | Strategy.hash s, cfg =>
    let (ok, s') := s.configure cfg
    (ok, Strategy.hash s')
  | Strategy.perceptual s, cfg =>
    let (ok, s') := s.configure cfg
    (ok, Strategy.perceptual s')
  | Strategy.hybrid s, cfg =>
    let (ok, s') := s.configure cfg
    (ok, Strategy.hybrid s')

/-- Modelled from the spec: `is_duplicate(candidate, reference)` dispatched
over the strategy variants. -/
def Strategy.is_duplicate : Strategy → RawCapture → RawCapture →
    Except DedupError (Bool × Strategy)
  | Strategy.hash s, c, r =>
    (s.is_duplicate c r).map (fun p => (p.1, Strategy.hash p.2))
  | Strategy.perceptual s, c, r =>
    (s.is_duplicate c r).map (fun p => (p.1, Strategy.perceptual p.2))
  | Strategy.hybrid s, c, r =>
    (s.is_duplicate c r).map (fun p => (p.1, Strategy.hybrid p.2))

/-- Modelled from the spec: `get_similarity_score()` dispatched over the
strategy variants. -/
def Strategy.get_similarity_score : Strategy → ℚ
  | Strategy.hash s => s.get_similarity_score
  | Strategy.perceptual s => s.get_similarity_score
  | Strategy.hybrid s => s.get_similarity_score

/-- Modelled from the spec: the event types the engine consumes and emits
(`core/interfaces/events.py` is missing from the tree); `STORAGE_ERROR` is
the "error-class event on internal failure". -/
inductive EventType where
  | SLIDE_CAPTURED
  | SLIDE_UNIQUE
  | SLIDE_DUPLICATE
  | STORAGE_ERROR
deriving Repr, DecidableEq

/-- Modelled from the spec: an event with the payload fields the engine
reads and writes — `session_id`, the capture (`none` models an
absent/malformed capture payload) and, on outbound classification events,
the similarity score. -/
structure Event where
  type : EventType
  session_id : String
  capture : Option RawCapture := none
  similarity_score : ℚ := 0
deriving Repr

/-- Modelled from the spec: an inbound `SLIDE_CAPTURED` event carrying
`\x7bsession_id, capture\x7d`. -/
def capturedEvent (sid : String) (cap : RawCapture) : Event :=
  { type := EventType.SLIDE_CAPTURED, session_id := sid,
    capture := some cap }

/-- Modelled from the spec: the Deduplication Engine's state —
`last_accepted_capture` (the comparison baseline), `total_captures`,
`unique_count`, `duplicate_count`, the `running` flag, the bound session
and the owned strategy instance (`modules/dedup/engine.py` is missing from
the tree). -/
structure Engine where
  strategy : Strategy
  session_id : String
  running : Bool := false
  last_accepted_capture : Option RawCapture := none
  total_captures : Nat := 0
  unique_count : Nat := 0
  duplicate_count : Nat := 0
deriving Repr

/-- Modelled from the spec: `start()` — "transitions Stopped→Running:
subscribes the engine's internal handler …, resets/initializes running
statistics, returns true. Calling `start()` while already Running is a
no-op that returns false". -/
def Engine.start (e : Engine) : Bool × Engine :=
  if e.running then (false, e)
  else
    (true, { e with
      running := true, last_accepted_capture := none,
      total_captures := 0, unique_count := 0, duplicate_count := 0 })

/-- Modelled from the spec: `stop()` — "transitions Running→Stopped:
unsubscribes the handler, returns true; calling `stop()` while Stopped
returns false". -/
def Engine.stop (e : Engine) : Bool × Engine :=
  if e.running then (true, { e with running := false })
  else (false, e)

/-- Modelled from the spec: `is_running()`. -/
def Engine.is_running (e : Engine) : Bool := e.running

/-- Modelled from the spec: the engine's per-event handler (§4.3 steps
1–5): ignore events while not Running or for a different session; publish
an error event on a malformed payload; classify the first capture as
unique unconditionally; otherwise compare against the baseline via the
strategy, publishing `SLIDE_DUPLICATE` (baseline unchanged) or
`SLIDE_UNIQUE` (baseline replaced); a strategy error is downgraded to an
error event with the capture left unclassified (per §7 and the §9 open
question, the "neither, with error event" choice).  Returns the updated
engine and the list of published events. -/
def Engine.handle_captured (e : Engine) (ev : Event) :
    Engine × List Event :=
  if e.running = false then (e, [])
  else if ev.type ≠ EventType.SLIDE_CAPTURED then (e, [])
  else if ev.session_id ≠ e.session_id then (e, [])
  else
    match ev.capture with
    | none =>
      (e, [{ type := EventType.STORAGE_ERROR, session_id := e.session_id }])
    | some cap =>
      match e.last_accepted_capture with
      | none =>
        ({ e with
            last_accepted_capture := some cap,
            total_captures := e.total_captures + 1,
            unique_count := e.unique_count + 1 },
         [{ type := EventType.SLIDE_UNIQUE, session_id := e.session_id,
            capture := some cap }])
      | some base =>
        match e.strategy.is_duplicate cap base with
        | Except.error _ =>
          (e, [{ type := EventType.STORAGE_ERROR,
                 session_id := e.session_id }])
        | Except.ok (dup, s') =>
          if dup then
            ({ e with
                strategy := s',
                total_captures := e.total_captures + 1,
                duplicate_count := e.duplicate_count + 1 },
             [{ type := EventType.SLIDE_DUPLICATE,
                session_id := e.session_id, capture := some cap,
                similarity_score := s'.get_similarity_score }])
          else
            ({ e with
                strategy := s',
                last_accepted_capture := some cap,
                total_captures := e.total_captures + 1,
                unique_count := e.unique_count + 1 },
             [{ type := EventType.SLIDE_UNIQUE,
                session_id := e.session_id, capture := some cap,
                similarity_score := s'.get_similarity_score }])

/-- Modelled from the spec: sequential delivery of a stream of events to
the engine's handler ("event delivery to a given handler set must be
serialized"); collects the published events in order. -/
def Engine.runEvents : Engine → List Event → Engine × List Event
  | e, [] => (e, [])
  | e, ev :: rest =>
    let (e1, out1) := e.handle_captured ev
    let (e2, out2) := e1.runEvents rest
    (e2, out1 ++ out2)

/-! Session id generation and validation, embedded from
`modules/cloud/session_manager.py` (class `SessionIDGenerator`).  Python
strings are modelled as `List Char`.  The character-class builtins
(`str.isupper`, `str.isalpha`, `str.isdigit`) consult the Unicode
database; they are modelled here faithfully over the Latin-1 repertoire
(code points up to U+00FF), which covers every character the generator
draws (`string.ascii_uppercase`, `string.digits`), the hyphen, and the
non-ASCII characters the theorems below mention; code points above U+00FF
are classified by the model as uncased non-letters and non-digits, and no
theorem in this development depends on the classification of such a
character. -/

/-- ASCII uppercase letter test, `A`–`Z`. -/
def asciiUpperChar (c : Char) : Bool := 'A' ≤ c && c ≤ 'Z'

/-- ASCII lowercase letter test, `a`–`z`. -/
def asciiLowerChar (c : Char) : Bool := 'a' ≤ c && c ≤ 'z'

/-- ASCII decimal digit test, `0`–`9`. -/
def asciiDigitChar (c : Char) : Bool := '0' ≤ c && c ≤ '9'

/-- The uppercase letters of the Latin-1 repertoire, as classified by
Python's Unicode database: `A`–`Z`, `À`–`Ö` and `Ø`–`Þ` (U+00D7 `×` is not
a letter). -/
def pyUpperChar (c : Char) : Bool :=
  asciiUpperChar c || ('À' ≤ c && c ≤ 'Ö') || ('Ø' ≤ c && c ≤ 'Þ')

/-- The lowercase letters of the Latin-1 repertoire, as classified by
Python's Unicode database: `a`–`z`, `ß`–`ö`, `ø`–`ÿ` (U+00F7 `÷` is not a
letter) and the lowercase-letter signs `ª`, `º`, `µ`. -/
def pyLowerChar (c : Char) : Bool :=
  asciiLowerChar c || ('ß' ≤ c && c ≤ 'ö') || ('ø' ≤ c && c ≤ 'ÿ') ||
  c = 'ª' || c = 'º' || c = 'µ'

/-- A cased character of the Latin-1 repertoire (uppercase or
lowercase). -/
def pyCasedChar (c : Char) : Bool := pyUpperChar c || pyLowerChar c

/-- The character class of `str.isalpha` over the Latin-1 repertoire;
every Latin-1 letter is cased. -/
def pyAlphaChar (c : Char) : Bool := pyUpperChar c || pyLowerChar c

/-- The character class of `str.isdigit` over the Latin-1 repertoire:
`0`–`9` and the superscript digits `¹`, `²`, `³` (the vulgar fractions
like `¼` are numeric but not digits). -/
def pyDigitChar (c : Char) : Bool :=
  asciiDigitChar c || c = '¹' || c = '²' || c = '³'

/-- Python `str.isalpha`: nonempty and every character alphabetic. -/
def pyIsAlpha (s : List Char) : Bool := !s.isEmpty && s.all pyAlphaChar

/-- Python `str.isupper`: at least one cased character and every cased
character uppercase. -/
def pyIsUpper (s : List Char) : Bool :=
  s.any pyCasedChar && s.all (fun c => !pyCasedChar c || pyUpperChar c)

/-- Python `str.isdigit`: nonempty and every character a digit. -/
def pyIsDigit (s : List Char) : Bool := !s.isEmpty && s.all pyDigitChar

/-- Python `str.split(sep)` for a single-character separator: splitting on
every occurrence, keeping empty parts (`"".split(sep)` is `[""]`). -/
def pySplit (sep : Char) : List Char → List (List Char)
  | [] => [[]]
  | c :: rest =>
    match pySplit sep rest with
    | [] => [[]]
    | h :: t => if c = sep then [] :: h :: t else (c :: h) :: t

/-- The letter drawn by `random.choices(string.ascii_uppercase)` for a draw
index. -/
def upperOfIndex (i : Fin 26) : Char := Char.ofNat ('A'.toNat + i)

/-- The digit drawn by `random.choices(string.digits)` for a draw index. -/
def digitOfIndex (i : Fin 10) : Char := Char.ofNat ('0'.toNat + i)

/-- `SessionIDGenerator.generate` from `modules/cloud/session_manager.py`:
three random draws from `string.ascii_uppercase`, then `"-"`, then four
random draws from `string.digits` (the format string
`f"\x7bletters\x7d-\x7bnumbers\x7d"`); the random draws are explicit
parameters. -/
def generate (l1 l2 l3 : Fin 26) (d1 d2 d3 d4 : Fin 10) : List Char :=
  [upperOfIndex l1, upperOfIndex l2, upperOfIndex l3, '-',
   digitOfIndex d1, digitOfIndex d2, digitOfIndex d3, digitOfIndex d4]

/-- `SessionIDGenerator.is_valid` from `modules/cloud/session_manager.py`:
reject empty or non-8-character input, split on `"-"`, require exactly two
parts of lengths 3 and 4, the first uppercase alphabetic, the second all
digits. -/
def is_valid (session_id : List Char) : Bool :=
  if session_id.isEmpty || session_id.length ≠ 8 then false
  else
    match pySplit '-' session_id with
    | [letters, numbers] =>
      if letters.length ≠ 3 || numbers.length ≠ 4 then false
      else if !(pyIsUpper letters && pyIsAlpha letters) then false
      else if !(pyIsDigit numbers) then false
      else true
    | _ => false

/-- The id format named by the claim: three ASCII uppercase letters, a
hyphen, then four decimal digits (an 8-character string).  This is the
claim-side characterization `is_valid` is compared against. -/
def isIDForm : List Char → Bool
  | [a, b, c, h, d1, d2, d3, d4] =>
    asciiUpperChar a && asciiUpperChar b && asciiUpperChar c &&
    h = '-' &&
    asciiDigitChar d1 && asciiDigitChar d2 && asciiDigitChar d3 &&
    asciiDigitChar d4
  | _ => false

/-- A sample solid-red 2×2 capture used to instantiate the theorems on a
concrete input. -/
def capRed : RawCapture :=
  { image := [255, 0, 0, 255, 0, 0, 255, 0, 0, 255, 0, 0],
    timestamp := 0, monitor_id := 1, width := 2, height := 2,
    capture_id := 0 }

/-- A sample solid-blue 2×2 capture used to instantiate the theorems on a
concrete input. -/
def capBlue : RawCapture :=
  { image := [0, 0, 255, 0, 0, 255, 0, 0, 255, 0, 0, 255],
    timestamp := 1, monitor_id := 1, width := 2, height := 2,
    capture_id := 1 }

/-- The red sample capture with a single pixel changed to blue: the buffers
differ in exactly one pixel. -/
def capRedOnePixel : RawCapture :=
  { image := [255, 0, 0, 255, 0, 0, 255, 0, 0, 0, 0, 255],
    timestamp := 2, monitor_id := 1, width := 2, height := 2,
    capture_id := 2 }

/-- A sample engine instance: an initialized md5 Hash strategy bound to
session `S1`, already started. -/
def engineS1 : Engine :=
  { strategy := Strategy.hash { initialized := true },
    session_id := "S1", running := true }

/-- C9: the engine's start/stop state machine — `start()` from Stopped
returns true and leaves the engine Running, `start()` while Running
returns false, `stop()` from Running returns true and leaves the engine
Stopped, `stop()` while Stopped returns false; hence `start()` twice
returns [true, false] and `stop()` twice returns [true, false]. -/
theorem engine_start_stop_state_machine (e : Engine) :
    (e.running = false → e.start.1 = true ∧ e.start.2.running = true) ∧
    (e.running = true → e.start = (false, e)) ∧
    (e.running = true → e.stop.1 = true ∧ e.stop.2.running = false) ∧
    (e.running = false → e.stop = (false, e)) ∧
    (e.running = false →
      e.start.1 = true ∧ e.start.2.start.1 = false) ∧
    (e.running = true →
      e.stop.1 = true ∧ e.stop.2.stop.1 = false) := by
  refine ⟨fun h => ?_, fun h => ?_, fun h => ?_, fun h => ?_,
    fun h => ?_, fun h => ?_⟩ <;>
    simp [Engine.start, Engine.stop, h]

/-- Witness for C9 at a concrete stopped engine: starting twice returns
[true, false]. -/
theorem engine_start_stop_state_machine_witness :
    ({ engineS1 with running := false } : Engine).start.1 = true ∧
    ({ engineS1 with running := false } : Engine).start.2.start.1 = false :=
  (engine_start_stop_state_machine { engineS1 with running := false }).2.2.2.2.1
    rfl

/-- C8: session isolation — a `SLIDE_CAPTURED` event whose `session_id`
differs from the engine's bound session is ignored: no event is published
and the engine state (statistics and baseline) is unchanged. -/
theorem engine_ignores_other_sessions (e : Engine) (ev : Event)
    (hty : ev.type = EventType.SLIDE_CAPTURED)
    (hsid : ev.session_id ≠ e.session_id) :
    e.handle_captured ev = (e, []) := by
  unfold Engine.handle_captured
  by_cases hr : e.running = false <;> simp [hr, hty, hsid]

/-- Witness for C8: the `S1` engine ignores a capture tagged with a
different session id. -/
theorem engine_ignores_other_sessions_witness :
    engineS1.handle_captured (capturedEvent "different-session-id" capRed) =
      (engineS1, []) :=
  engine_ignores_other_sessions engineS1
    (capturedEvent "different-session-id" capRed) rfl (by decide)

/-- C7: for every strategy variant, `is_duplicate` before a successful
`initialize` fails with the `NotInitialized` error kind, for every pair of
captures. -/
theorem is_duplicate_requires_initialized (st : Strategy)
    (h : st.initialized = false) (c r : RawCapture) :
    st.is_duplicate c r = Except.error DedupError.notInitialized := by
  cases st <;>
    simp_all [Strategy.is_duplicate, Strategy.initialized,
      HashStrategy.is_duplicate, PerceptualStrategy.is_duplicate,
      HybridStrategy.is_duplicate, Except.map]

/-- Witness for C7: an uninitialized Hash strategy rejects a comparison
with `NotInitialized`. -/
theorem is_duplicate_requires_initialized_witness :
    Strategy.is_duplicate (Strategy.hash {}) capRed capBlue =
      Except.error DedupError.notInitialized :=
  is_duplicate_requires_initialized (Strategy.hash {}) rfl capRed capBlue

/-- C2: for every strategy and a running engine with no prior accepted
capture, the first `SLIDE_CAPTURED` event for the bound session is
classified unique unconditionally: exactly one `SLIDE_UNIQUE` event is
published and the capture becomes the baseline. -/
theorem first_capture_always_unique (e : Engine) (cap : RawCapture)
    (hrun : e.running = true)
    (hbase : e.last_accepted_capture = none) :
    e.handle_captured (capturedEvent e.session_id cap) =
      ({ e with last_accepted_capture := some cap,
                total_captures := e.total_captures + 1,
                unique_count := e.unique_count + 1 },
       [{ type := EventType.SLIDE_UNIQUE, session_id := e.session_id,
          capture := some cap }]) := by
  unfold Engine.handle_captured
  simp [capturedEvent, hrun, hbase]

/-- Witness for C2 at the concrete `S1` engine and the red capture. -/
theorem first_capture_always_unique_witness :
    (engineS1.handle_captured (capturedEvent "S1" capRed)).2.map Event.type =
      [EventType.SLIDE_UNIQUE] ∧
    (engineS1.handle_captured
        (capturedEvent "S1" capRed)).1.last_accepted_capture = some capRed := by
  rw [show capturedEvent "S1" capRed =
        capturedEvent engineS1.session_id capRed from rfl,
      first_capture_always_unique engineS1 capRed rfl rfl]
  exact ⟨rfl, rfl⟩

/-- C3: the initialized Hash strategy classifies two captures as duplicate
with similarity score exactly 1 when the pixel buffers are bit-for-bit
identical, and as non-duplicate with score exactly 0 for any difference in
the buffers; no intermediate score is produced. -/
theorem hash_strategy_binary_score (s : HashStrategy)
    (h : s.initialized = true) (c r : RawCapture) :
    (c.image = r.image →
      s.is_duplicate c r = Except.ok (true,
        { s with comparisons_count := s.comparisons_count + 1,
                 last_similarity_score := 1 })) ∧
    (c.image ≠ r.image →
      s.is_duplicate c r = Except.ok (false,
        { s with comparisons_count := s.comparisons_count + 1,
                 last_similarity_score := 0 })) := by
  constructor <;> intro heq <;>
    simp [HashStrategy.is_duplicate, digestsEqual, h, heq]

/-- Witness for C3: with md5, bit-identical red captures score exactly 1
and captures differing in a single pixel score exactly 0. -/
theorem hash_strategy_binary_score_witness :
    HashStrategy.is_duplicate { initialized := true } capRed capRed =
      Except.ok (true,
        { initialized := true, comparisons_count := 1,
          last_similarity_score := 1 }) ∧
    HashStrategy.is_duplicate { initialized := true } capRed capRedOnePixel =
      Except.ok (false,
        { initialized := true, comparisons_count := 1,
          last_similarity_score := 0 }) :=
  ⟨(hash_strategy_binary_score { initialized := true } rfl capRed capRed).1
      rfl,
   (hash_strategy_binary_score { initialized := true } rfl capRed
      capRedOnePixel).2 (by decide)⟩

/-- C6: for every strategy, `initialize` with an invalid configuration —
an unsupported hash algorithm name, a perceptual threshold outside [0,1],
an unsupported hash size, or an unknown stage name — returns false; the
configure functions are total, so no exception crosses the public
boundary. -/
theorem invalid_configuration_returns_false :
    (∀ (s : HashStrategy) (cfg : DedupConfig) (a : String),
      cfg.hash_algorithm = some a → a ∉ supportedHashAlgorithms →
      (s.configure cfg).1 = false) ∧
    (∀ (s : PerceptualStrategy) (cfg : DedupConfig) (t : ℚ),
      cfg.perceptual_threshold = some t → (t < 0 ∨ 1 < t) →
      (s.configure cfg).1 = false) ∧
    (∀ (s : PerceptualStrategy) (cfg : DedupConfig) (n : Nat),
      cfg.perceptual_hash_size = some n → n ∉ supportedHashSizes →
      (s.configure cfg).1 = false) ∧
    (∀ (s : HybridStrategy) (cfg : DedupConfig) (names : List String)
      (nm : String),
      cfg.stages = some names → nm ∈ names → parseStage nm = none →
      (s.configure cfg).1 = false) := by
  refine ⟨fun s cfg a hcfg ha => ?_, fun s cfg t hcfg ht => ?_,
    fun s cfg n hcfg hn => ?_, fun s cfg names nm hcfg hnm hpar => ?_⟩
  · simp [HashStrategy.configure, hcfg, ha]
  · unfold PerceptualStrategy.configure
    rw [hcfg]
    rw [if_neg]
    · intro hand
      rcases ht with h1 | h1
      · exact absurd hand.1 (not_le.mpr h1)
      · exact absurd hand.2.1 (not_le.mpr h1)
  · unfold PerceptualStrategy.configure
    rw [hcfg]
    rw [if_neg]
    intro hand
    exact hn hand.2.2
  · unfold HybridStrategy.configure
    rw [hcfg]
    rw [if_neg]
    intro hand
    have hmem : parseStage nm ∈ names.map parseStage :=
      List.mem_map_of_mem parseStage hnm
    have := List.all_eq_true.mp hand.1 _ hmem
    rw [hpar] at this
    simp at this

/-- Witness for C6: each invalid-configuration kind rejected at a concrete
input. -/
theorem invalid_configuration_returns_false_witness :
    (HashStrategy.configure {} { hash_algorithm := some "invalid" }).1 =
      false ∧
    (PerceptualStrategy.configure {}
      { perceptual_threshold := some (3 / 2) }).1 = false ∧
    (PerceptualStrategy.configure {}
      { perceptual_hash_size := some 32 }).1 = false ∧
    (HybridStrategy.configure {}
      { stages := some ["invalid_stage"] }).1 = false :=
  ⟨invalid_configuration_returns_false.1 {} _ "invalid" rfl (by decide),
   invalid_configuration_returns_false.2.1 {} _ (3 / 2) rfl
     (Or.inr (by norm_num)),
   invalid_configuration_returns_false.2.2.1 {} _ 32 rfl (by decide),
   invalid_configuration_returns_false.2.2.2 {} _ ["invalid_stage"]
     "invalid_stage" rfl (by decide) (by decide)⟩

/-- A fingerprint always has exactly `n * n` bits. -/
theorem fingerprint_length (cap : RawCapture) (n : Nat) :
    (fingerprint cap n).length = n * n := by
  simp [fingerprint, downscale]

/-- The hamming distance never exceeds the first fingerprint's bit
count. -/
theorem hammingDistance_le (a b : List Bool) :
    hammingDistance a b ≤ a.length := by
  unfold hammingDistance
  calc (List.zipWith (fun x y => x != y) a b).count true ≤
      (List.zipWith (fun x y => x != y) a b).length :=
        List.count_le_length _ _
    _ = min a.length b.length := List.length_zipWith _ _ _
    _ ≤ a.length := min_le_left _ _

/-- The perceptual similarity score lies in [0, 1] whenever the
fingerprint size is positive. -/
theorem perceptualScore_mem_unitInterval (n : Nat) (hn : 0 < n)
    (c r : RawCapture) :
    0 ≤ perceptualScore n c r ∧ perceptualScore n c r ≤ 1 := by
  have hd : hammingDistance (fingerprint c n) (fingerprint r n) ≤ n * n := by
    calc hammingDistance (fingerprint c n) (fingerprint r n) ≤
        (fingerprint c n).length := hammingDistance_le _ _
      _ = n * n := fingerprint_length _ _
  have hpos : (0 : ℚ) < ((n * n : Nat) : ℚ) := by
    have : 0 < n * n := Nat.mul_pos hn hn
    exact_mod_cast this
  constructor
  · unfold perceptualScore
    have : (hammingDistance (fingerprint c n) (fingerprint r n) : ℚ) /
        ((n * n : Nat) : ℚ) ≤ 1 := by
      rw [div_le_one hpos]
      exact_mod_cast hd
    linarith
  · unfold perceptualScore
    have : 0 ≤ (hammingDistance (fingerprint c n) (fingerprint r n) : ℚ) /
        ((n * n : Nat) : ℚ) :=
      div_nonneg (by positivity) (le_of_lt hpos)
    linarith

/-- C4: after a successful `initialize`, the Perceptual strategy's
similarity score equals 1 minus the hamming distance between the two
fingerprints divided by the total bit count, `is_duplicate` holds iff that
score reaches the configured threshold, the score lies in [0, 1], and the
default threshold is 0.95. -/
theorem perceptual_score_formula (s0 s : PerceptualStrategy)
    (cfg : DedupConfig) (hcfg : s0.configure cfg = (true, s))
    (c r : RawCapture) :
    (∃ s', s.is_duplicate c r = Except.ok
        (decide (s.perceptual_threshold ≤
          perceptualScore s.perceptual_hash_size c r), s') ∧
      s'.last_similarity_score =
        perceptualScore s.perceptual_hash_size c r ∧
      perceptualScore s.perceptual_hash_size c r =
        1 - (hammingDistance (fingerprint c s.perceptual_hash_size)
              (fingerprint r s.perceptual_hash_size) : ℚ) /
            ((s.perceptual_hash_size * s.perceptual_hash_size : Nat) : ℚ) ∧
      0 ≤ perceptualScore s.perceptual_hash_size c r ∧
      perceptualScore s.perceptual_hash_size c r ≤ 1) ∧
    ({} : PerceptualStrategy).perceptual_threshold = 19 / 20 := by
  refine ⟨?_, rfl⟩
  unfold PerceptualStrategy.configure at hcfg
  dsimp only at hcfg
  split at hcfg
  case isFalse => simp at hcfg
  case isTrue hcond =>
    have hs : s = { s0 with
        initialized := true,
        perceptual_threshold :=
          cfg.perceptual_threshold.getD s0.perceptual_threshold,
        perceptual_hash_size :=
          cfg.perceptual_hash_size.getD s0.perceptual_hash_size } := by
      have := congrArg Prod.snd hcfg
      simpa using this.symm
    have hmem := hcond.2.2
    simp only [supportedHashSizes, List.mem_cons, List.mem_singleton,
      List.not_mem_nil, or_false] at hmem
    have hn : 0 < s.perceptual_hash_size := by
      rw [hs]
      rcases hmem with h | h <;> simp [h]
    have hinit : s.initialized = true := by rw [hs]
    obtain ⟨h0, h1⟩ := perceptualScore_mem_unitInterval
      s.perceptual_hash_size hn c r
    have hok : s.is_duplicate c r = Except.ok
        (decide (s.perceptual_threshold ≤
          perceptualScore s.perceptual_hash_size c r),
         { s with comparisons_count := s.comparisons_count + 1,
                  last_similarity_score :=
                    perceptualScore s.perceptual_hash_size c r }) := by
      simp [PerceptualStrategy.is_duplicate, hinit]
    exact ⟨_, hok, rfl, rfl, h0, h1⟩

/-- Witness for C4: a successfully initialized default Perceptual strategy
produces a score in [0, 1] for the red/blue captures. -/
theorem perceptual_score_formula_witness :
    0 ≤ perceptualScore 8 capRed capBlue ∧
    perceptualScore 8 capRed capBlue ≤ 1 := by
  obtain ⟨⟨s', -, -, -, h0, h1⟩, -⟩ :=
    perceptual_score_formula {} { initialized := true } {}
      (by norm_num [PerceptualStrategy.configure, supportedHashSizes])
      capRed capBlue
  exact ⟨h0, h1⟩

/-- C5: the Hybrid strategy short-circuits on the first matching stage —
with stages [hash, perceptual] and bit-identical buffers the hash stage
matches, `hash_matches` increments and `perceptual_matches` does not —
and every comparison preserves the invariant that `hash_matches +
perceptual_matches + no_matches` equals `comparisons_count`. -/
theorem hybrid_short_circuit_and_counts :
    (∀ (s : HybridStrategy) (c r : RawCapture),
      s.initialized = true →
      s.stages = [Stage.hash, Stage.perceptual] →
      c.image = r.image →
      ∃ s', s.is_duplicate c r = Except.ok (true, s') ∧
        s'.hash_matches = s.hash_matches + 1 ∧
        s'.perceptual_matches = s.perceptual_matches ∧
        s'.no_matches = s.no_matches) ∧
    (∀ (s : HybridStrategy) (c r : RawCapture) (d : Bool)
      (s' : HybridStrategy),
      s.is_duplicate c r = Except.ok (d, s') →
      s.hash_matches + s.perceptual_matches + s.no_matches =
        s.comparisons_count →
      s'.hash_matches + s'.perceptual_matches + s'.no_matches =
        s'.comparisons_count) ∧
    ({} : HybridStrategy).hash_matches +
      ({} : HybridStrategy).perceptual_matches +
      ({} : HybridStrategy).no_matches =
      ({} : HybridStrategy).comparisons_count := by
  refine ⟨?_, ?_, rfl⟩
  · intro s c r hinit hstages heq
    have hok : s.is_duplicate c r = Except.ok (true, { s with
        hash_matches := s.hash_matches + 1,
        comparisons_count := s.comparisons_count + 1,
        last_similarity_score := 1 }) := by
      simp [HybridStrategy.is_duplicate, hinit, hstages,
        HybridStrategy.runStages, digestsEqual, heq]
    exact ⟨_, hok, rfl, rfl, rfl⟩
  · intro s c r d s' hok hsum
    unfold HybridStrategy.is_duplicate at hok
    split at hok
    case isFalse => simp at hok
    case isTrue hinit =>
      rcases hrs : s.runStages c r s.stages with ⟨ms, sc⟩
      rw [hrs] at hok
      simp only [Except.ok.injEq, Prod.mk.injEq] at hok
      obtain ⟨-, rfl⟩ := hok
      rcases ms with - | st
      · simp; omega
      · cases st <;> simp <;> omega

/-- Witness for C5: a default-configured hybrid strategy on bit-identical
red captures matches via the hash stage only. -/
theorem hybrid_short_circuit_and_counts_witness :
    ∃ s', HybridStrategy.is_duplicate { initialized := true } capRed capRed =
        Except.ok (true, s') ∧
      s'.hash_matches = 1 ∧ s'.perceptual_matches = 0 ∧
      s'.no_matches = 0 := by
  obtain ⟨s', hok, h1, h2, h3⟩ :=
    hybrid_short_circuit_and_counts.1 { initialized := true } capRed capRed
      rfl rfl rfl
  exact ⟨s', hok, h1, h2, h3⟩

/-- C1: a capture classified duplicate never replaces the comparison
baseline, and for the capture sequence [A, A, A] on one session a started
engine with an initialized Hash strategy emits
[UNIQUE, DUPLICATE, DUPLICATE] and ends with total_captures = 3,
unique_slides = 1, duplicate_slides = 2. -/
theorem duplicate_suppression_baseline_invariant :
    (∀ (e : Engine) (ev : Event) (e' : Engine) (out : List Event),
      e.handle_captured ev = (e', out) →
      (∃ x ∈ out, x.type = EventType.SLIDE_DUPLICATE) →
      e'.last_accepted_capture = e.last_accepted_capture) ∧
    (∀ (s : HashStrategy), s.initialized = true →
      ∀ (sid : String) (A : RawCapture),
      (Engine.runEvents
          { strategy := Strategy.hash s, session_id := sid, running := true }
          [capturedEvent sid A, capturedEvent sid A,
           capturedEvent sid A]).2.map Event.type =
        [EventType.SLIDE_UNIQUE, EventType.SLIDE_DUPLICATE,
         EventType.SLIDE_DUPLICATE] ∧
      (Engine.runEvents
          { strategy := Strategy.hash s, session_id := sid, running := true }
          [capturedEvent sid A, capturedEvent sid A,
           capturedEvent sid A]).1.total_captures = 3 ∧
      (Engine.runEvents
          { strategy := Strategy.hash s, session_id := sid, running := true }
          [capturedEvent sid A, capturedEvent sid A,
           capturedEvent sid A]).1.unique_count = 1 ∧
      (Engine.runEvents
          { strategy := Strategy.hash s, session_id := sid, running := true }
          [capturedEvent sid A, capturedEvent sid A,
           capturedEvent sid A]).1.duplicate_count = 2) := by
  constructor
  · intro e ev e' out h hdup
    unfold Engine.handle_captured at h
    repeat' split at h
    all_goals
      injection h with h1 h2
      subst h1
      subst h2
      simp_all
  · intro s hs sid A
    refine ⟨?_, ?_, ?_, ?_⟩ <;>
      simp [Engine.runEvents, Engine.handle_captured, capturedEvent,
        Strategy.is_duplicate, HashStrategy.is_duplicate, digestsEqual, hs,
        Strategy.get_similarity_score, HashStrategy.get_similarity_score,
        Except.map]

/-- Witness for C1: the concrete `S1` engine on three identical red
captures ends with 3 captures, 1 unique, 2 duplicates. -/
theorem duplicate_suppression_baseline_invariant_witness :
    (engineS1.runEvents [capturedEvent "S1" capRed,
        capturedEvent "S1" capRed, capturedEvent "S1" capRed]).2.map
      Event.type =
      [EventType.SLIDE_UNIQUE, EventType.SLIDE_DUPLICATE,
       EventType.SLIDE_DUPLICATE] ∧
    (engineS1.runEvents [capturedEvent "S1" capRed,
        capturedEvent "S1" capRed, capturedEvent "S1" capRed]).1.total_captures
      = 3 :=
  ⟨(duplicate_suppression_baseline_invariant.2 { initialized := true } rfl
      "S1" capRed).1,
   (duplicate_suppression_baseline_invariant.2 { initialized := true } rfl
      "S1" capRed).2.1⟩

/-- Splitting never yields an empty list of parts. -/
theorem pySplit_ne_nil (sep : Char) (s : List Char) :
    pySplit sep s ≠ [] := by
  induction s with
  | nil => simp [pySplit]
  | cons c rest ih =>
    rcases h : pySplit sep rest with - | ⟨hd, tl⟩
    · exact absurd h ih
    · simp only [pySplit, h]
      split <;> simp

/-- A single part means the input had no separator and equals the part. -/
theorem pySplit_eq_singleton (sep : Char) :
    ∀ (s t : List Char), pySplit sep s = [t] → s = t := by
  intro s
  induction s with
  | nil =>
    intro t h
    simp [pySplit] at h
    exact h.symm
  | cons c rest ih =>
    intro t h
    unfold pySplit at h
    rcases hr : pySplit sep rest with - | ⟨hd, tl⟩
    · exact absurd hr (pySplit_ne_nil sep rest)
    · rw [hr] at h
      dsimp only at h
      by_cases hc : c = sep
      · rw [if_pos hc] at h
        simp at h
      · rw [if_neg hc] at h
        injection h with h1 h2
        subst h2
        have := ih hd hr
        subst this
        exact h1

/-- Exactly two parts means the input is the first part, the separator,
then the second part. -/
theorem pySplit_eq_pair (sep : Char) :
    ∀ (s l n : List Char), pySplit sep s = [l, n] → s = l ++ sep :: n := by
  intro s
  induction s with
  | nil =>
    intro l n h
    simp [pySplit] at h
  | cons c rest ih =>
    intro l n h
    unfold pySplit at h
    rcases hr : pySplit sep rest with - | ⟨hd, tl⟩
    · exact absurd hr (pySplit_ne_nil sep rest)
    · rw [hr] at h
      dsimp only at h
      by_cases hc : c = sep
      · rw [if_pos hc] at h
        injection h with h1 h2
        injection h2 with h3 h4
        subst h1
        subst h3
        subst h4
        have := pySplit_eq_singleton sep rest hd hr
        subst this
        rw [hc]
        rfl
      · rw [if_neg hc] at h
        injection h with h1 h2
        subst h2
        have := ih hd n hr
        subst h1
        rw [this]
        rfl

/-- A separator-free string splits into exactly itself. -/
theorem pySplit_no_sep (sep : Char) :
    ∀ (s : List Char), (∀ c ∈ s, c ≠ sep) → pySplit sep s = [s] := by
  intro s
  induction s with
  | nil => intro _; rfl
  | cons c rest ih =>
    intro hno
    have hc : c ≠ sep := hno c (List.mem_cons_self c rest)
    have hrest := ih (fun x hx => hno x (List.mem_cons_of_mem c hx))
    simp only [pySplit, hrest]
    rw [if_neg hc]

/-- Splitting a string with exactly one separator occurrence yields the two
surrounding parts. -/
theorem pySplit_sep_append (sep : Char) (l n : List Char)
    (hl : ∀ c ∈ l, c ≠ sep) (hn : ∀ c ∈ n, c ≠ sep) :
    pySplit sep (l ++ sep :: n) = [l, n] := by
  induction l with
  | nil =>
    simp only [List.nil_append, pySplit, pySplit_no_sep sep n hn]
    simp
  | cons c l ih =>
    have hc : c ≠ sep := hl c (List.mem_cons_self c l)
    have ih' := ih (fun x hx => hl x (List.mem_cons_of_mem c hx))
    have hstep : pySplit sep (c :: l ++ sep :: n) =
        match pySplit sep (l ++ sep :: n) with
        | [] => [[]]
        | h :: t => if c = sep then [] :: h :: t else (c :: h) :: t := rfl
    rw [hstep, ih']
    simp [hc]

/-- An ASCII uppercase letter is not the hyphen. -/
theorem upper_ne_hyphen (c : Char) (h : asciiUpperChar c = true) :
    c ≠ '-' := by
  intro he
  rw [he] at h
  exact absurd h (by decide)

/-- An ASCII digit is not the hyphen. -/
theorem digit_ne_hyphen (c : Char) (h : asciiDigitChar c = true) :
    c ≠ '-' := by
  intro he
  rw [he] at h
  exact absurd h (by decide)

/-- Every draw from `string.ascii_uppercase` is an ASCII uppercase
letter. -/
theorem upperOfIndex_upper : ∀ i : Fin 26,
    asciiUpperChar (upperOfIndex i) = true := by decide

/-- Every draw from `string.digits` is an ASCII digit. -/
theorem digitOfIndex_digit : ∀ i : Fin 10,
    asciiDigitChar (digitOfIndex i) = true := by decide

/-- An ASCII uppercase letter is uppercase for Python's character
classes. -/
theorem ascii_upper_pyUpper (c : Char) (h : asciiUpperChar c = true) :
    pyUpperChar c = true := by
  simp [pyUpperChar, h]

/-- An ASCII uppercase letter is cased for Python's character classes. -/
theorem ascii_upper_pyCased (c : Char) (h : asciiUpperChar c = true) :
    pyCasedChar c = true := by
  simp [pyCasedChar, ascii_upper_pyUpper c h]

/-- An ASCII uppercase letter is alphabetic for Python's character
classes. -/
theorem ascii_upper_pyAlpha (c : Char) (h : asciiUpperChar c = true) :
    pyAlphaChar c = true := by
  simp [pyAlphaChar, ascii_upper_pyUpper c h]

/-- An ASCII digit is a digit for Python's character classes. -/
theorem ascii_digit_pyDigit (c : Char) (h : asciiDigitChar c = true) :
    pyDigitChar c = true := by
  simp [pyDigitChar, h]

/-- `is_valid` accepts every 8-character ASCII LLL-NNNN string. -/
theorem isIDForm_implies_is_valid (s : List Char)
    (h : isIDForm s = true) : is_valid s = true := by
    rcases s with - | ⟨x1, s⟩
    · exact Bool.noConfusion h
    rcases s with - | ⟨x2, s⟩
    · exact Bool.noConfusion h
    rcases s with - | ⟨x3, s⟩
    · exact Bool.noConfusion h
    rcases s with - | ⟨x4, s⟩
    · exact Bool.noConfusion h
    rcases s with - | ⟨x5, s⟩
    · exact Bool.noConfusion h
    rcases s with - | ⟨x6, s⟩
    · exact Bool.noConfusion h
    rcases s with - | ⟨x7, s⟩
    · exact Bool.noConfusion h
    rcases s with - | ⟨x8, s⟩
    · exact Bool.noConfusion h
    rcases s with - | ⟨x9, s⟩
    case cons => exact Bool.noConfusion h
    simp only [isIDForm] at h
    simp only [Bool.and_eq_true, decide_eq_true_eq] at h
    obtain ⟨⟨⟨⟨⟨⟨⟨h1, h2⟩, h3⟩, h4⟩, h5⟩, h6⟩, h7⟩, h8⟩ := h
    subst h4
    have hsp : pySplit '-' ([x1, x2, x3] ++ '-' :: [x5, x6, x7, x8]) =
        [[x1, x2, x3], [x5, x6, x7, x8]] := by
      refine pySplit_sep_append '-' [x1, x2, x3] [x5, x6, x7, x8] ?_ ?_
      · intro c hc
        simp only [List.mem_cons, List.not_mem_nil, or_false] at hc
        rcases hc with rfl | rfl | rfl
        · exact upper_ne_hyphen _ h1
        · exact upper_ne_hyphen _ h2
        · exact upper_ne_hyphen _ h3
      · intro c hc
        simp only [List.mem_cons, List.not_mem_nil, or_false] at hc
        rcases hc with rfl | rfl | rfl | rfl
        · exact digit_ne_hyphen _ h5
        · exact digit_ne_hyphen _ h6
        · exact digit_ne_hyphen _ h7
        · exact digit_ne_hyphen _ h8
    unfold is_valid
    rw [show (x1 :: x2 :: x3 :: '-' :: x5 :: x6 :: x7 :: x8 :: []) =
          [x1, x2, x3] ++ '-' :: [x5, x6, x7, x8] from rfl, hsp]
    simp [pyIsUpper, pyIsAlpha, pyIsDigit,
      ascii_upper_pyUpper x1 h1, ascii_upper_pyUpper x2 h2,
      ascii_upper_pyUpper x3 h3,
      ascii_upper_pyCased x1 h1, ascii_upper_pyCased x2 h2,
      ascii_upper_pyCased x3 h3,
      ascii_upper_pyAlpha x1 h1, ascii_upper_pyAlpha x2 h2,
      ascii_upper_pyAlpha x3 h3,
      ascii_digit_pyDigit x5 h5, ascii_digit_pyDigit x6 h6,
      ascii_digit_pyDigit x7 h7, ascii_digit_pyDigit x8 h8]

/-- C10 counterexample: `is_valid` does not accept only the ASCII
LLL-NNNN strings — `ÀBC-1234` is accepted (its first letter `À` is an
uppercase letter to Python's `isupper`/`isalpha`) although it is not of
the claimed ASCII form. -/
theorem is_valid_accepts_non_ascii :
    is_valid ['À', 'B', 'C', '-', '1', '2', '3', '4'] = true ∧
    isIDForm ['À', 'B', 'C', '-', '1', '2', '3', '4'] = false := by decide

/-- C10 (amended): every id produced by `SessionIDGenerator.generate` is
an 8-character string of the form three ASCII uppercase letters, a
hyphen, then four decimal digits — the true length is 8, not the 7 stated
in the generator's docstring — and `SessionIDGenerator.is_valid` accepts
every string of that form, so the round trip `is_valid (generate ())`
always holds.  Acceptance is not limited to that form: Python's
Unicode-aware character classes also admit ids such as `ÀBC-1234` (see
the counterexample theorem). -/
theorem session_id_generate_roundtrip :
    (∀ (l1 l2 l3 : Fin 26) (d1 d2 d3 d4 : Fin 10),
      (generate l1 l2 l3 d1 d2 d3 d4).length = 8 ∧
      isIDForm (generate l1 l2 l3 d1 d2 d3 d4) = true ∧
      is_valid (generate l1 l2 l3 d1 d2 d3 d4) = true) ∧
    (∀ s : List Char, isIDForm s = true → is_valid s = true) := by
  constructor
  · intro l1 l2 l3 d1 d2 d3 d4
    have hform : isIDForm (generate l1 l2 l3 d1 d2 d3 d4) = true := by
      simp [generate, isIDForm, upperOfIndex_upper, digitOfIndex_digit]
    exact ⟨rfl, hform, isIDForm_implies_is_valid _ hform⟩
  · exact isIDForm_implies_is_valid

/-- Witness for C10: the concrete draws spelling `ABC-0123` generate a
valid id of length 8, and the concrete ASCII-form string `XYZ-9876` is
accepted. -/
theorem session_id_generate_roundtrip_witness :
    (generate 0 1 2 0 1 2 3).length = 8 ∧
    is_valid (generate 0 1 2 0 1 2 3) = true ∧
    is_valid ['X', 'Y', 'Z', '-', '9', '8', '7', '6'] = true :=
  ⟨(session_id_generate_roundtrip.1 0 1 2 0 1 2 3).1,
   (session_id_generate_roundtrip.1 0 1 2 0 1 2 3).2.2,
   session_id_generate_roundtrip.2 ['X', 'Y', 'Z', '-', '9', '8', '7', '6']
     (by decide)⟩

end Seenslide
